import Mathlib

/-!
Verification of `src/tools/create_stack.py` (Warden provisioning CLI).

Strings are modelled as lists of characters (`Str`), JSON values as an
inductive type, and the script's `main` as a function from parsed
arguments and an HTTP oracle (the outcome of the i-th request issued) to
the trace of requests sent, the events printed, and the exit code.
-/

abbrev Str := List Char

/-- One step of Python's `s.replace(pat, "")` scan.  `skip > 0` means we are
inside a matched occurrence and the current characters are being deleted;
at `skip = 0` we test whether `pat` matches at the current position and
either start deleting it or emit the current character. -/
def dropAllGo (pat : Str) : Nat → Str → Str
  | _, [] => []
  | n + 1, _ :: rest => dropAllGo pat n rest
  | 0, c :: rest =>
    if pat.isPrefixOf (c :: rest) then dropAllGo pat (pat.length - 1) rest
    else c :: dropAllGo pat 0 rest

/-- Python `s.replace(pat, "")`: delete every (leftmost, non-overlapping)
occurrence of `pat` in `s`. -/
def dropAll (pat : Str) (s : Str) : Str := dropAllGo pat 0 s

/-- The `https://` scheme as a character list. -/
def httpsL : Str := "https://".toList

/-- The `http://` scheme as a character list. -/
def httpL : Str := "http://".toList

/-- Line 58 of the script:
`name = url.replace("https://", "").replace("http://", "").split("/")[0]`. -/
def deriveName (url : Str) : Str :=
  (dropAll httpL (dropAll httpsL url)).takeWhile (fun c => c != '/')

/-- The spec's wording for the name derivation: remove a *leading*
`http://` or `https://` prefix (if present), then truncate at the first
`/` that follows. -/
def stripLeadingScheme (url : Str) : Str :=
  if httpsL.isPrefixOf url then url.drop 8
  else if httpL.isPrefixOf url then url.drop 7
  else url

/-- The display name as the spec describes it (strip a leading scheme,
truncate at the first remaining `/`). -/
def claimedName (url : Str) : Str :=
  (stripLeadingScheme url).takeWhile (fun c => c != '/')

/-- Python `s.rstrip('/')` (line 30): remove all trailing `/` characters. -/
def rstripSlash (s : Str) : Str :=
  (s.reverse.dropWhile (fun c => c == '/')).reverse

/-- JSON values (numbers modelled as integers; the script only ever puts
integers in payloads, and the server's `id` is opaque). -/
inductive Json where
  | null
  | bool (b : Bool)
  | num (n : Int)
  | str (s : Str)
  | arr (elems : List Json)
  | obj (fields : List (Str × Json))

/-- Field lookup in a JSON object's field list (Python `dict[key]`,
returning `none` where Python would raise `KeyError`). -/
def lookupFields : List (Str × Json) → Str → Option Json
  | [], _ => none
  | (k, v) :: rest, key => if k = key then some v else lookupFields rest key

/-- `j[key]` on a JSON value: only objects support indexing by string;
anything else raises in Python, modelled as `none`. -/
def Json.lookup (j : Json) (key : Str) : Option Json :=
  match j with
  | .obj fields => lookupFields fields key
  | _ => none

/-- The parsed command-line arguments (lines 22-29).  `host` and
`interval` carry argparse's defaults; `key`, `group`, `urls` are
required. -/
structure Args where
  host : Str := "http://localhost:9090".toList
  key : Str
  group : Str
  urls : List Str
  interval : Int := 60

/-- An HTTP request as built by the script. -/
structure Request where
  url : Str
  data : Json
  headers : List (Str × Str)
  method : Str

/-- Lines 9-19: `create_request(url, data, api_key)`. -/
def create_request (url : Str) (data : Json) (api_key : Str) : Request :=
  { url := url
    data := data
    headers := [("Content-Type".toList, "application/json".toList),
                ("Authorization".toList, "Bearer ".toList ++ api_key)]
    method := "POST".toList }

/-- The outcome of one `urllib.request.urlopen` call: a response with a
status and a body (`none` when the body is not valid JSON), a raised
`urllib.error.HTTPError`, or any other raised exception (transport
errors etc.). -/
inductive HttpOutcome where
  | ok (status : Nat) (body : Option Json)
  | httpError (code : Nat) (reason : Str) (body : Str)
  | exn (msg : Str)

/-- The progress lines the script prints, one constructor per `print`
site that reports an outcome. -/
inductive Event where
  | groupCreated (id : Json)
  | groupStatusFailure (status : Nat)
  | groupHttpError (code : Nat) (reason : Str)
  | groupError (msg : Str)
  | groupIdError
  | monitorAdded (url name : Str)
  | monitorStatusFailure (url : Str) (status : Nat)
  | monitorHttpError (url : Str) (code : Nat)
  | monitorError (url : Str) (msg : Str)

/-- What a run of `main` produces: the requests issued in order, the
outcome events printed in order, and the process exit code. -/
structure RunResult where
  requests : List Request
  events : List Event
  exitCode : Nat

/-- Lines 42-43: `json.load(response)` followed by `group_data['id']`.
`none` models every exception path (body not valid JSON, JSON value not
an object, object without an `id` key). -/
def extractId : Option Json → Option Json
  | some (Json.obj fields) => lookupFields fields "id".toList
  | _ => none

/-- Lines 60-65: the monitor payload for one URL. -/
def monitorPayload (url : Str) (groupId : Json) (interval : Int) : Json :=
  Json.obj [("name".toList, Json.str (deriveName url)),
            ("url".toList, Json.str url),
            ("groupId".toList, groupId),
            ("interval".toList, Json.num interval)]

/-- The monitor-creation request for one URL (line 68). -/
def monitorRequest (base key : Str) (groupId : Json) (interval : Int)
    (url : Str) : Request :=
  create_request (base ++ "/api/monitors".toList)
    (monitorPayload url groupId interval) key

/-- The group-creation request (line 37). -/
def groupRequest (args : Args) : Request :=
  create_request (rstripSlash args.host ++ "/api/groups".toList)
    (Json.obj [("name".toList, Json.str args.group)]) args.key

/-- Lines 69-77: what is printed for one monitor URL, as a function of
that request's outcome alone. -/
def monitorEvent (url : Str) (out : HttpOutcome) : Event :=
  match out with
  | .ok status _ =>
      if status = 201 then .monitorAdded url (deriveName url)
      else .monitorStatusFailure url status
  | .httpError code _ _ => .monitorHttpError url code
  | .exn msg => .monitorError url msg

/-- Lines 56-77: the monitor loop.  `i` is the index of the next request
to be issued (the oracle numbers requests in issue order). -/
def runMonitors (base key : Str) (groupId : Json) (interval : Int)
    (oracle : Nat → HttpOutcome) (i : Nat) :
    List Str → List Request × List Event
  | [] => ([], [])
  | url :: rest =>
    let req := monitorRequest base key groupId interval url
    let later := runMonitors base key groupId interval oracle (i + 1) rest
    (req :: later.1, monitorEvent url (oracle i) :: later.2)

/-- Lines 21-79: `main()`.  The oracle gives the outcome of the i-th
HTTP request issued (request 0 is the group creation). -/
def runMain (args : Args) (oracle : Nat → HttpOutcome) : RunResult :=
  let base := rstripSlash args.host
  let greq := groupRequest args
  match oracle 0 with
  | .ok status body =>
    if status = 201 then
      match extractId body with
      | some gid =>
        let mons := runMonitors base args.key gid args.interval oracle 1 args.urls
        ⟨greq :: mons.1, Event.groupCreated gid :: mons.2, 0⟩
      | none => ⟨[greq], [Event.groupIdError], 1⟩
    else ⟨[greq], [Event.groupStatusFailure status], 1⟩
  | .httpError code reason _ => ⟨[greq], [Event.groupHttpError code reason], 1⟩
  | .exn msg => ⟨[greq], [Event.groupError msg], 1⟩

/-- `pat` occurs as a contiguous substring of `s`. -/
def containsSub (pat : Str) : Str → Bool
  | [] => pat.isEmpty
  | c :: rest => pat.isPrefixOf (c :: rest) || containsSub pat rest

/-- The per-URL report events, starting at request index `i`: each URL's
event is a function of that URL and its own request's outcome only. -/
def monitorReports (oracle : Nat → HttpOutcome) : Nat → List Str → List Event
  | _, [] => []
  | i, url :: rest => monitorEvent url (oracle i) :: monitorReports oracle (i + 1) rest

/-- The group id the run proceeds with: `some` exactly when the first
request returned status 201 with a JSON object body carrying `id`. -/
def groupOutcomeId : HttpOutcome → Option Json
  | .ok status body => if status = 201 then extractId body else none
  | .httpError _ _ _ => none
  | .exn _ => none

/-- The group-creation request failed: a non-201 status, a raised
`HTTPError`, or any other exception (transport error). -/
def groupCreationFails : HttpOutcome → Prop
  | .ok status _ => status ≠ 201
  | .httpError _ _ _ => True
  | .exn _ => True

/-- The printed output consists of exactly the failure report matching
the group request's outcome: its status code, or its code and reason,
or the exception message. -/
def groupFailureReported : HttpOutcome → List Event → Prop
  | .ok status _, evs => evs = [Event.groupStatusFailure status]
  | .httpError code reason _, evs => evs = [Event.groupHttpError code reason]
  | .exn msg, evs => evs = [Event.groupError msg]

/-- A sample invocation (two URLs, default host and interval). -/
def sampleArgs : Args :=
  { key := "k1".toList
    group := "My Service Stack".toList
    urls := ["https://service1.com/health".toList, "http://service2.com".toList] }

/-- A sample invocation with three URLs. -/
def sampleArgs3 : Args :=
  { key := "k1".toList
    group := "My Service Stack".toList
    urls := ["https://service1.com/health".toList, "http://service2.com".toList,
             "http://service3.com".toList] }

/-- An oracle whose every request raises `HTTPError` 500. -/
def failOracle : Nat → HttpOutcome :=
  fun _ => HttpOutcome.httpError 500 "Internal Server Error".toList []

/-- An oracle where every request succeeds; the group creation returns
`{"id": 7}`. -/
def okOracle : Nat → HttpOutcome
  | 0 => HttpOutcome.ok 201 (some (Json.obj [("id".toList, Json.num 7)]))
  | _ + 1 => HttpOutcome.ok 201 none

/-- An oracle where group creation succeeds with `{"id": 7}` and the
first monitor creation returns status 400. -/
def mixedOracle : Nat → HttpOutcome
  | 0 => HttpOutcome.ok 201 (some (Json.obj [("id".toList, Json.num 7)]))
  | 1 => HttpOutcome.ok 400 none
  | _ + 2 => HttpOutcome.ok 201 none

/-- An oracle where group creation returns 201 but the body is not
valid JSON. -/
def badBodyOracle : Nat → HttpOutcome :=
  fun _ => HttpOutcome.ok 201 none

lemma dropAllGo_skip (pat : Str) (s : Str) :
    ∀ n, dropAllGo pat n s = dropAll pat (s.drop n) := by
  induction s with
  | nil => intro n; cases n <;> rfl
  | cons c rest ih =>
    intro n
    cases n with
    | zero => rfl
    | succ m => exact ih m

lemma dropAll_cons (pat : Str) (c : Char) (r : Str) :
    dropAll pat (c :: r)
      = if pat.isPrefixOf (c :: r) then dropAll pat (r.drop (pat.length - 1))
        else c :: dropAll pat r := by
  by_cases h : pat.isPrefixOf (c :: r)
  · rw [if_pos h]
    show dropAllGo pat 0 (c :: r) = _
    simp only [dropAllGo]
    rw [if_pos h]
    exact dropAllGo_skip pat r _
  · rw [if_neg h]
    show dropAllGo pat 0 (c :: r) = _
    simp only [dropAllGo]
    rw [if_neg h]
    rfl

lemma isPrefixOf_append_drop {pat s : Str} (h : pat.isPrefixOf s) :
    pat ++ s.drop pat.length = s := by
  obtain ⟨t, ht⟩ := List.isPrefixOf_iff_prefix.mp h
  rw [← ht, List.drop_left]

lemma dropAll_of_not_sub {pat : Str} (s : Str) (h : containsSub pat s = false) :
    dropAll pat s = s := by
  induction s with
  | nil => rfl
  | cons c rest ih =>
    cases hp : pat.isPrefixOf (c :: rest) with
    | true => exfalso; simp [containsSub, hp] at h
    | false =>
      simp only [containsSub, hp, Bool.false_or] at h
      rw [dropAll_cons, if_neg (by simp [hp]), ih h]

lemma dropAll_self_append (p : Char) (ps s : Str) :
    dropAll (p :: ps) ((p :: ps) ++ s) = dropAll (p :: ps) s := by
  have hpre : (p :: ps).isPrefixOf (p :: (ps ++ s)) :=
    List.isPrefixOf_iff_prefix.mpr ⟨s, by simp⟩
  show dropAll (p :: ps) (p :: (ps ++ s)) = _
  rw [dropAll_cons, if_pos hpre]
  congr 1
  simp [List.drop_left]

lemma dropAll_httpsL_append (s : Str) :
    dropAll httpsL (httpsL ++ s) = dropAll httpsL s :=
  dropAll_self_append 'h' "ttps://".toList s

lemma dropAll_httpL_append (s : Str) :
    dropAll httpL (httpL ++ s) = dropAll httpL s :=
  dropAll_self_append 'h' "ttp://".toList s

lemma dropAll_httpsL_on_httpL (rest : Str) (h : containsSub httpsL rest = false) :
    dropAll httpsL (httpL ++ rest) = httpL ++ rest := by
  show dropAll httpsL ('h' :: 't' :: 't' :: 'p' :: ':' :: '/' :: '/' :: rest)
      = 'h' :: 't' :: 't' :: 'p' :: ':' :: '/' :: '/' :: rest
  rw [dropAll_cons, if_neg (fun hh => Bool.noConfusion hh)]
  rw [dropAll_cons, if_neg (fun hh => Bool.noConfusion hh)]
  rw [dropAll_cons, if_neg (fun hh => Bool.noConfusion hh)]
  rw [dropAll_cons, if_neg (fun hh => Bool.noConfusion hh)]
  rw [dropAll_cons, if_neg (fun hh => Bool.noConfusion hh)]
  rw [dropAll_cons, if_neg (fun hh => Bool.noConfusion hh)]
  rw [dropAll_cons, if_neg (fun hh => Bool.noConfusion hh)]
  rw [dropAll_of_not_sub rest h]

lemma dropWhile_slash_replicate (t : Str) (k : Nat) :
    (List.replicate k '/' ++ t).dropWhile (fun c => c == '/')
      = t.dropWhile (fun c => c == '/') := by
  induction k with
  | zero => rfl
  | succ m ih =>
    rw [List.replicate_succ, List.cons_append, List.dropWhile_cons,
        if_pos (by decide)]
    exact ih

lemma rstripSlash_append_replicate (h : Str) (k : Nat) :
    rstripSlash (h ++ List.replicate k '/') = rstripSlash h := by
  unfold rstripSlash
  rw [List.reverse_append, List.reverse_replicate, dropWhile_slash_replicate]

lemma rstripSlash_eq_self (h : Str) (hh : h.reverse.head? ≠ some '/') :
    rstripSlash h = h := by
  unfold rstripSlash
  cases hr : h.reverse with
  | nil =>
    have h0 : h = [] := by simpa using congrArg List.reverse hr
    simp [h0]
  | cons c t =>
    have hc : ¬ ((c == '/') = true) := by
      rw [hr] at hh
      simp only [List.head?] at hh
      simp only [beq_iff_eq]
      intro he
      exact hh (by rw [he])
    rw [List.dropWhile_cons, if_neg hc, ← hr, List.reverse_reverse]

lemma runMonitors_eq (base key : Str) (gid : Json) (interval : Int)
    (oracle : Nat → HttpOutcome) :
    ∀ (i : Nat) (urls : List Str),
      runMonitors base key gid interval oracle i urls
        = (urls.map (monitorRequest base key gid interval),
           monitorReports oracle i urls) := by
  intro i urls
  induction urls generalizing i with
  | nil => rfl
  | cons url rest ih => simp [runMonitors, monitorReports, ih]

lemma runMain_success (args : Args) (oracle : Nat → HttpOutcome)
    (body : Option Json) (gid : Json)
    (h0 : oracle 0 = HttpOutcome.ok 201 body) (hid : extractId body = some gid) :
    runMain args oracle
      = ⟨groupRequest args
           :: args.urls.map
                (monitorRequest (rstripSlash args.host) args.key gid args.interval),
         Event.groupCreated gid :: monitorReports oracle 1 args.urls, 0⟩ := by
  unfold runMain
  rw [h0]
  simp [hid, runMonitors_eq]

lemma runMain_badStatus (args : Args) (oracle : Nat → HttpOutcome)
    (status : Nat) (body : Option Json)
    (h0 : oracle 0 = HttpOutcome.ok status body) (hs : status ≠ 201) :
    runMain args oracle = ⟨[groupRequest args], [Event.groupStatusFailure status], 1⟩ := by
  unfold runMain
  rw [h0]
  simp [hs]

lemma runMain_badId (args : Args) (oracle : Nat → HttpOutcome) (body : Option Json)
    (h0 : oracle 0 = HttpOutcome.ok 201 body) (hid : extractId body = none) :
    runMain args oracle = ⟨[groupRequest args], [Event.groupIdError], 1⟩ := by
  unfold runMain
  rw [h0]
  simp [hid]

lemma runMain_httpErr (args : Args) (oracle : Nat → HttpOutcome)
    (code : Nat) (reason b : Str)
    (h0 : oracle 0 = HttpOutcome.httpError code reason b) :
    runMain args oracle = ⟨[groupRequest args], [Event.groupHttpError code reason], 1⟩ := by
  unfold runMain
  rw [h0]

lemma runMain_exnErr (args : Args) (oracle : Nat → HttpOutcome) (msg : Str)
    (h0 : oracle 0 = HttpOutcome.exn msg) :
    runMain args oracle = ⟨[groupRequest args], [Event.groupError msg], 1⟩ := by
  unfold runMain
  rw [h0]

lemma mem_requests_cases (args : Args) (oracle : Nat → HttpOutcome) :
    ∀ r ∈ (runMain args oracle).requests,
      r = groupRequest args
      ∨ ∃ gid url, url ∈ args.urls
          ∧ r = monitorRequest (rstripSlash args.host) args.key gid args.interval url := by
  intro r hr
  cases h0 : oracle 0 with
  | ok status body =>
    by_cases hs : status = 201
    · subst hs
      cases hid : extractId body with
      | none =>
        rw [runMain_badId args oracle body h0 hid] at hr
        simp only [List.mem_singleton] at hr
        exact Or.inl hr
      | some gid =>
        rw [runMain_success args oracle body gid h0 hid] at hr
        simp only [List.mem_cons, List.mem_map] at hr
        rcases hr with h | ⟨url, hu, hru⟩
        · exact Or.inl h
        · exact Or.inr ⟨gid, url, hu, hru.symm⟩
    · rw [runMain_badStatus args oracle status body h0 hs] at hr
      simp only [List.mem_singleton] at hr
      exact Or.inl hr
  | httpError code reason b =>
    rw [runMain_httpErr args oracle code reason b h0] at hr
    simp only [List.mem_singleton] at hr
    exact Or.inl hr
  | exn msg =>
    rw [runMain_exnErr args oracle msg h0] at hr
    simp only [List.mem_singleton] at hr
    exact Or.inl hr

lemma groupRequest_url_ne (args : Args) :
    (groupRequest args).url ≠ rstripSlash args.host ++ "/api/monitors".toList := by
  intro h
  simp only [groupRequest, create_request] at h
  have h2 := List.append_cancel_left h
  exact absurd h2 (by decide)

lemma monitorPayload_groupId (url : Str) (gid : Json) (interval : Int) :
    (monitorPayload url gid interval).lookup "groupId".toList = some gid := rfl

lemma monitorPayload_interval (url : Str) (gid : Json) (interval : Int) :
    (monitorPayload url gid interval).lookup "interval".toList
      = some (Json.num interval) := rfl

lemma interval_of_monitor (args : Args) (oracle : Nat → HttpOutcome) :
    ∀ r ∈ (runMain args oracle).requests,
      r.url = rstripSlash args.host ++ "/api/monitors".toList →
      r.data.lookup "interval".toList = some (Json.num args.interval) := by
  intro r hr hurl
  rcases mem_requests_cases args oracle r hr with h | ⟨gid, url, _, h⟩
  · rw [h] at hurl
    exact absurd hurl (groupRequest_url_ne args)
  · rw [h]
    exact monitorPayload_interval url gid args.interval

lemma name_eq_of_leading_only (url : Str)
    (h1 : containsSub httpsL (stripLeadingScheme url) = false)
    (h2 : containsSub httpL (stripLeadingScheme url) = false) :
    deriveName url = claimedName url := by
  by_cases hps : httpsL.isPrefixOf url
  · have hstrip : stripLeadingScheme url = url.drop 8 := by
      unfold stripLeadingScheme
      rw [if_pos hps]
    rw [hstrip] at h1 h2
    have hurl : httpsL ++ url.drop 8 = url := isPrefixOf_append_drop hps
    have e1 : dropAll httpsL url = url.drop 8 := by
      conv_lhs => rw [← hurl]
      rw [dropAll_httpsL_append]
      exact dropAll_of_not_sub _ h1
    have e2 : dropAll httpL (url.drop 8) = url.drop 8 := dropAll_of_not_sub _ h2
    unfold deriveName claimedName
    rw [e1, e2, hstrip]
  · by_cases hp : httpL.isPrefixOf url
    · have hstrip : stripLeadingScheme url = url.drop 7 := by
        unfold stripLeadingScheme
        rw [if_neg hps, if_pos hp]
      rw [hstrip] at h1 h2
      have hurl : httpL ++ url.drop 7 = url := isPrefixOf_append_drop hp
      have e0 : dropAll httpsL url = url := by
        conv_lhs => rw [← hurl]
        rw [dropAll_httpsL_on_httpL (url.drop 7) h1]
        exact hurl
      have e1 : dropAll httpL url = url.drop 7 := by
        conv_lhs => rw [← hurl]
        rw [dropAll_httpL_append]
        exact dropAll_of_not_sub _ h2
      unfold deriveName claimedName
      rw [e0, e1, hstrip]
    · have hstrip : stripLeadingScheme url = url := by
        unfold stripLeadingScheme
        rw [if_neg hps, if_neg hp]
      rw [hstrip] at h1 h2
      have e0 : dropAll httpsL url = url := dropAll_of_not_sub _ h1
      have e1 : dropAll httpL url = url := dropAll_of_not_sub _ h2
      unfold deriveName claimedName
      rw [e0, e1, hstrip]

lemma runMain_host_congr (h1 h2 k g : Str) (us : List Str) (i : Int)
    (oracle : Nat → HttpOutcome) (e : rstripSlash h1 = rstripSlash h2) :
    runMain ⟨h1, k, g, us, i⟩ oracle = runMain ⟨h2, k, g, us, i⟩ oracle := by
  simp only [runMain, groupRequest]
  rw [e]

/-- C1 (counterexample): the claim says scheme substrings occurring
elsewhere in the URL are left intact, but `str.replace` removes every
occurrence: for `http://http://x.com` the code yields `x.com` while the
claimed derivation (strip one leading prefix, cut at the next `/`)
yields `http:`. -/
theorem c1_counterexample_interior_scheme :
    deriveName "http://http://x.com".toList
      ≠ claimedName "http://http://x.com".toList := by
  decide

/-- C1 (amended): for every URL in which `http://` and `https://` do not
occur beyond the leading prefix, the monitor display name equals the
result of removing the leading scheme prefix and truncating at the first
`/` that follows; scheme substrings occurring elsewhere are removed as
well (global replacement), not left intact. -/
theorem c1_name_derivation_amended (url : Str)
    (h1 : containsSub httpsL (stripLeadingScheme url) = false)
    (h2 : containsSub httpL (stripLeadingScheme url) = false) :
    deriveName url = claimedName url :=
  name_eq_of_leading_only url h1 h2

/-- C1 witness: the amended theorem applied to `https://service1.com/health`. -/
theorem c1_name_derivation_amended_witness :
    containsSub httpsL (stripLeadingScheme "https://service1.com/health".toList) = false
    ∧ containsSub httpL (stripLeadingScheme "https://service1.com/health".toList) = false
    ∧ deriveName "https://service1.com/health".toList
        = claimedName "https://service1.com/health".toList :=
  ⟨by decide, by decide,
   c1_name_derivation_amended "https://service1.com/health".toList
     (by decide) (by decide)⟩

/-- C2: whenever the group-creation request fails (non-201 status,
`HTTPError`, or any other exception), the only request ever issued is
the group POST (so no monitor POST is sent), the failure's status code
or reason is reported, and the exit code is non-zero. -/
theorem c2_group_failure_fatal (args : Args) (oracle : Nat → HttpOutcome)
    (h : groupCreationFails (oracle 0)) :
    (runMain args oracle).requests = [groupRequest args]
    ∧ (runMain args oracle).exitCode ≠ 0
    ∧ groupFailureReported (oracle 0) (runMain args oracle).events := by
  cases h0 : oracle 0 with
  | ok status body =>
    rw [h0] at h
    have hs : status ≠ 201 := h
    rw [runMain_badStatus args oracle status body h0 hs]
    exact ⟨rfl, Nat.one_ne_zero, rfl⟩
  | httpError code reason b =>
    rw [runMain_httpErr args oracle code reason b h0]
    exact ⟨rfl, Nat.one_ne_zero, rfl⟩
  | exn msg =>
    rw [runMain_exnErr args oracle msg h0]
    exact ⟨rfl, Nat.one_ne_zero, rfl⟩

/-- C2 witness: a run whose group creation raises `HTTPError` 500. -/
theorem c2_group_failure_fatal_witness :
    groupCreationFails (failOracle 0)
    ∧ ((runMain sampleArgs failOracle).requests = [groupRequest sampleArgs]
       ∧ (runMain sampleArgs failOracle).exitCode ≠ 0
       ∧ groupFailureReported (failOracle 0) (runMain sampleArgs failOracle).events) :=
  ⟨by trivial, c2_group_failure_fatal sampleArgs failOracle (by trivial)⟩

/-- C3: when group creation succeeds, the run exits 0 whatever the
monitor outcomes, every URL gets exactly one monitor request (the
request list does not depend on the oracle beyond the group id), and
each URL's report is a function of that URL's own outcome only. -/
theorem c3_monitor_failures_isolated (args : Args) (oracle : Nat → HttpOutcome)
    (body : Option Json) (gid : Json)
    (h0 : oracle 0 = HttpOutcome.ok 201 body) (hid : extractId body = some gid) :
    (runMain args oracle).exitCode = 0
    ∧ (runMain args oracle).requests
        = groupRequest args
            :: args.urls.map
                 (monitorRequest (rstripSlash args.host) args.key gid args.interval)
    ∧ (runMain args oracle).events
        = Event.groupCreated gid :: monitorReports oracle 1 args.urls := by
  rw [runMain_success args oracle body gid h0 hid]
  exact ⟨rfl, rfl, rfl⟩

/-- C3 witness: three URLs, the first monitor creation failing with
status 400; the other two are still attempted and the exit code is 0. -/
theorem c3_monitor_failures_isolated_witness :
    mixedOracle 0 = HttpOutcome.ok 201 (some (Json.obj [("id".toList, Json.num 7)]))
    ∧ extractId (some (Json.obj [("id".toList, Json.num 7)])) = some (Json.num 7)
    ∧ ((runMain sampleArgs3 mixedOracle).exitCode = 0
       ∧ (runMain sampleArgs3 mixedOracle).requests
           = groupRequest sampleArgs3
               :: sampleArgs3.urls.map
                    (monitorRequest (rstripSlash sampleArgs3.host) sampleArgs3.key
                       (Json.num 7) sampleArgs3.interval)
       ∧ (runMain sampleArgs3 mixedOracle).events
           = Event.groupCreated (Json.num 7)
               :: monitorReports mixedOracle 1 sampleArgs3.urls) :=
  ⟨rfl, rfl,
   c3_monitor_failures_isolated sampleArgs3 mixedOracle
     (some (Json.obj [("id".toList, Json.num 7)])) (Json.num 7) rfl rfl⟩

/-- C4: when group creation returns 201 with a JSON body whose `id` is
`gid`, every request sent to the monitors endpoint carries exactly that
`gid` (whatever its JSON type) in its payload's `groupId` field. -/
theorem c4_groupId_verbatim (args : Args) (oracle : Nat → HttpOutcome)
    (body : Option Json) (gid : Json)
    (h0 : oracle 0 = HttpOutcome.ok 201 body) (hid : extractId body = some gid) :
    ∀ r ∈ (runMain args oracle).requests,
      r.url = rstripSlash args.host ++ "/api/monitors".toList →
      r.data.lookup "groupId".toList = some gid := by
  intro r hr hurl
  rw [runMain_success args oracle body gid h0 hid] at hr
  simp only [List.mem_cons, List.mem_map] at hr
  rcases hr with h | ⟨url, _, h⟩
  · rw [h] at hurl
    exact absurd hurl (groupRequest_url_ne args)
  · rw [← h]
    exact monitorPayload_groupId url gid args.interval

/-- C4 witness: with group id 7, the first monitor request's payload
carries `groupId = 7`. -/
theorem c4_groupId_verbatim_witness :
    okOracle 0 = HttpOutcome.ok 201 (some (Json.obj [("id".toList, Json.num 7)]))
    ∧ (monitorRequest (rstripSlash sampleArgs.host) sampleArgs.key (Json.num 7)
         sampleArgs.interval "https://service1.com/health".toList).data.lookup
        "groupId".toList = some (Json.num 7) :=
  ⟨rfl,
   c4_groupId_verbatim sampleArgs okOracle
     (some (Json.obj [("id".toList, Json.num 7)])) (Json.num 7) rfl rfl
     (monitorRequest (rstripSlash sampleArgs.host) sampleArgs.key (Json.num 7)
        sampleArgs.interval "https://service1.com/health".toList)
     (List.Mem.tail _ (List.Mem.head _)) rfl⟩

/-- C5: the request trace always starts with the single group POST, and
contains monitor POSTs (one per input URL, in input order) exactly when
the group creation completed successfully; otherwise no further request
is issued. -/
theorem c5_requests_sequential (args : Args) (oracle : Nat → HttpOutcome) :
    (runMain args oracle).requests
      = groupRequest args
          :: (match groupOutcomeId (oracle 0) with
              | some gid =>
                  args.urls.map
                    (monitorRequest (rstripSlash args.host) args.key gid args.interval)
              | none => []) := by
  cases h0 : oracle 0 with
  | ok status body =>
    by_cases hs : status = 201
    · subst hs
      cases hid : extractId body with
      | none =>
        rw [runMain_badId args oracle body h0 hid]
        simp [groupOutcomeId, hid]
      | some gid =>
        rw [runMain_success args oracle body gid h0 hid]
        simp [groupOutcomeId, hid]
    · rw [runMain_badStatus args oracle status body h0 hs]
      simp [groupOutcomeId, hs]
  | httpError code reason b =>
    rw [runMain_httpErr args oracle code reason b h0]
    simp [groupOutcomeId]
  | exn msg =>
    rw [runMain_exnErr args oracle msg h0]
    simp [groupOutcomeId]

/-- C6: every monitor payload carries `interval = 60` when `--interval`
is not supplied (argparse default), and the parsed integer when it is. -/
theorem c6_interval_default_and_explicit (oracle : Nat → HttpOutcome)
    (h k g : Str) (us : List Str) (i : Int) :
    (∀ r ∈ (runMain { host := h, key := k, group := g, urls := us } oracle).requests,
        r.url = rstripSlash h ++ "/api/monitors".toList →
        r.data.lookup "interval".toList = some (Json.num 60))
    ∧ (∀ r ∈ (runMain { host := h, key := k, group := g, urls := us,
                        interval := i } oracle).requests,
        r.url = rstripSlash h ++ "/api/monitors".toList →
        r.data.lookup "interval".toList = some (Json.num i)) :=
  ⟨fun r hr hu => interval_of_monitor _ oracle r hr hu,
   fun r hr hu => interval_of_monitor _ oracle r hr hu⟩

/-- C6 witness: the monitor request carries 60 by default and 5 when
`--interval 5` is supplied. -/
theorem c6_interval_witness :
    (monitorRequest (rstripSlash "http://localhost:9090".toList) "k1".toList
        (Json.num 7) 60 "http://service2.com".toList).data.lookup
      "interval".toList = some (Json.num 60)
    ∧ (monitorRequest (rstripSlash "http://localhost:9090".toList) "k1".toList
        (Json.num 7) 5 "http://service2.com".toList).data.lookup
      "interval".toList = some (Json.num 5) :=
  ⟨(c6_interval_default_and_explicit okOracle "http://localhost:9090".toList
      "k1".toList "My Service Stack".toList ["http://service2.com".toList] 5).1 _
     (List.Mem.tail _ (List.Mem.head _)) rfl,
   (c6_interval_default_and_explicit okOracle "http://localhost:9090".toList
      "k1".toList "My Service Stack".toList ["http://service2.com".toList] 5).2 _
     (List.Mem.tail _ (List.Mem.head _)) rfl⟩

/-- C7: the derived display names for the spec's two example URLs. -/
theorem c7_example_names :
    deriveName "https://service1.com/health".toList = "service1.com".toList
    ∧ deriveName "http://service2.com".toList = "service2.com".toList := by
  constructor <;> decide

/-- C8: every request the script builds carries exactly the
`Content-Type: application/json` header and the
`Authorization: Bearer <key>` header with the `--key` credential. -/
theorem c8_headers_on_all_requests (args : Args) (oracle : Nat → HttpOutcome) :
    ∀ r ∈ (runMain args oracle).requests,
      r.headers = [("Content-Type".toList, "application/json".toList),
                   ("Authorization".toList, "Bearer ".toList ++ args.key)] := by
  intro r hr
  rcases mem_requests_cases args oracle r hr with h | ⟨gid, url, _, h⟩
  · rw [h]; rfl
  · rw [h]; rfl

/-- C8 witness: the group request of a sample run carries both headers. -/
theorem c8_headers_witness :
    (groupRequest sampleArgs).headers
      = [("Content-Type".toList, "application/json".toList),
         ("Authorization".toList, "Bearer ".toList ++ sampleArgs.key)] :=
  c8_headers_on_all_requests sampleArgs failOracle (groupRequest sampleArgs)
    (List.Mem.head _)

/-- C9: a 201 group response whose body is not valid JSON, is not an
object, or lacks `id`, takes the generic exception path: an error event
is printed, the exit code is non-zero, and no monitor request is sent. -/
theorem c9_bad_body_after_201_fatal (args : Args) (oracle : Nat → HttpOutcome)
    (body : Option Json)
    (h0 : oracle 0 = HttpOutcome.ok 201 body) (hid : extractId body = none) :
    (runMain args oracle).requests = [groupRequest args]
    ∧ (runMain args oracle).exitCode ≠ 0
    ∧ (runMain args oracle).events = [Event.groupIdError] := by
  rw [runMain_badId args oracle body h0 hid]
  exact ⟨rfl, Nat.one_ne_zero, rfl⟩

/-- C9 witness: a 201 response with an unparseable body. -/
theorem c9_bad_body_witness :
    badBodyOracle 0 = HttpOutcome.ok 201 none
    ∧ ((runMain sampleArgs badBodyOracle).requests = [groupRequest sampleArgs]
       ∧ (runMain sampleArgs badBodyOracle).exitCode ≠ 0
       ∧ (runMain sampleArgs badBodyOracle).events = [Event.groupIdError]) :=
  ⟨rfl, c9_bad_body_after_201_fatal sampleArgs badBodyOracle none rfl rfl⟩

/-- C10: for a host with no trailing slashes, appending any number of
trailing `/` characters to `--host` leaves every endpoint URL the run
issues unchanged (line 30's `rstrip('/')`). -/
theorem c10_trailing_slashes_irrelevant (hostv : Str) (k : Nat) (ky g : Str)
    (us : List Str) (i : Int) (oracle : Nat → HttpOutcome)
    (hh : hostv.reverse.head? ≠ some '/') :
    (runMain ⟨hostv ++ List.replicate k '/', ky, g, us, i⟩ oracle).requests.map
        Request.url
      = (runMain ⟨hostv, ky, g, us, i⟩ oracle).requests.map Request.url := by
  rw [runMain_host_congr (hostv ++ List.replicate k '/') hostv ky g us i oracle
        (rstripSlash_append_replicate hostv k)]

/-- C10 witness: three trailing slashes on a sample host. -/
theorem c10_trailing_slashes_witness :
    ("http://myhost".toList).reverse.head? ≠ some '/'
    ∧ (runMain ⟨"http://myhost".toList ++ List.replicate 3 '/', "k1".toList,
          "g".toList, ["http://a".toList], 60⟩ failOracle).requests.map Request.url
        = (runMain ⟨"http://myhost".toList, "k1".toList, "g".toList,
            ["http://a".toList], 60⟩ failOracle).requests.map Request.url :=
  ⟨by decide,
   c10_trailing_slashes_irrelevant "http://myhost".toList 3 "k1".toList
     "g".toList ["http://a".toList] 60 failOracle (by decide)⟩
